import Mathlib

/-!
Shallow embedding of the cams-backend repository (Django apps `course_api` and
`authentication`), covering the report pipeline (`ReportListView`,
`ReportDownloadView`), the activity recorder (`ActivityLogView`) and the
dashboard growth helper (`calculate_growth`).

Machine-level conventions of the embedding:
* database rows are records in plain lists; a `Db` value is the whole store;
* Python enum classes become inductives mirroring `course_api/models.py`;
  dynamic attribute access on an enum class is modelled by a total lookup
  function returning `Option` (an absent member is an `AttributeError`);
* every HTTP handler is a pure function from the store and the request to an
  `HttpResult` (the uniform response envelope, a streamed file, a raised
  `Http404`, or an unhandled Python exception) and the updated store.
-/

namespace Cams

/-- A calendar date as produced by `datetime.date`. -/
structure Date where
  year : Nat
  month : Nat
  day : Nat
deriving DecidableEq

/-- Date comparison `a <= b`, lexicographic on year, month, day (Python date order). -/
def dateLe (a b : Date) : Bool :=
  decide (a.year < b.year) ||
    (decide (a.year = b.year) &&
      (decide (a.month < b.month) ||
        (decide (a.month = b.month) && decide (a.day ≤ b.day))))

/-- A datetime instant: the calendar date it falls on, plus a linear tick that
orders instants (two instants compare by `tick`; `date` is the `.date()`
projection used by `log_date__date` lookups). -/
structure Timestamp where
  date : Date
  tick : Nat
deriving DecidableEq

/-- Splits a character list at each dash, accumulating the current chunk. -/
def splitDashAux : List Char → List Char → List (List Char)
  | [], acc => [acc.reverse]
  | c :: cs, acc =>
      if c = '-' then acc.reverse :: splitDashAux cs [] else splitDashAux cs (c :: acc)

/-- Splits a string at dashes, like Python `s.split(chr(45))`. -/
def splitDash (s : String) : List String :=
  (splitDashAux s.toList []).map (fun l => String.mk l)

/-- Parses a non-empty all-digit string as a decimal number. -/
def parseNatDigits (s : String) : Option Nat :=
  if s.toList ≠ [] ∧ s.toList.all Char.isDigit then
    some (s.toList.foldl (fun a c => a * 10 + (c.toNat - 48)) 0)
  else none

/-- Gregorian leap-year test. -/
def isLeapYear (y : Nat) : Bool :=
  (decide (y % 4 = 0) && decide (y % 100 ≠ 0)) || decide (y % 400 = 0)

/-- Number of days in a month of a given year. -/
def daysInMonth (y m : Nat) : Nat :=
  if m = 2 then (if isLeapYear y then 29 else 28)
  else if m = 4 ∨ m = 6 ∨ m = 9 ∨ m = 11 then 30
  else 31

/-- Python `date.fromisoformat`: accepts exactly `YYYY-MM-DD` with a valid
calendar date, raises `ValueError` (here `none`) otherwise. -/
def Date.fromisoformat (s : String) : Option Date :=
  match splitDash s with
  | [ys, ms, ds] =>
      if ys.length = 4 ∧ ms.length = 2 ∧ ds.length = 2 then
        match parseNatDigits ys, parseNatDigits ms, parseNatDigits ds with
        | some y, some m, some d =>
            if 1 ≤ m ∧ m ≤ 12 ∧ 1 ≤ d ∧ d ≤ daysInMonth y m then some ⟨y, m, d⟩ else none
        | _, _, _ => none
      else none
  | _ => none

/-- Python `datetime.strptime(s, percent-Y-percent-m-percent-d).date()` as used by the
activity-log date filters; for the inputs relevant here it coincides with ISO
parsing. -/
def strptimeYMD (s : String) : Option Date :=
  Date.fromisoformat s

/-- `course_api/models.py` lines 7-18: the closed activity-type enumeration. -/
inductive ActivityTypeEnum
  | MDB_REPLY
  | TICKET_RESPONSE
  | ASSIGNMENT_UPLOAD
  | ASSIGNMENT_MARKING
  | GDB_MARKING
  | SESSION_TRACKING
  | EMAIL_RESPONSE
deriving DecidableEq

/-- The `.name` of an `ActivityTypeEnum` member. -/
def ActivityTypeEnum.name : ActivityTypeEnum → String
  | .MDB_REPLY => "MDB_REPLY"
  | .TICKET_RESPONSE => "TICKET_RESPONSE"
  | .ASSIGNMENT_UPLOAD => "ASSIGNMENT_UPLOAD"
  | .ASSIGNMENT_MARKING => "ASSIGNMENT_MARKING"
  | .GDB_MARKING => "GDB_MARKING"
  | .SESSION_TRACKING => "SESSION_TRACKING"
  | .EMAIL_RESPONSE => "EMAIL_RESPONSE"

/-- Iteration order of `ActivityTypeEnum` members. -/
def ActivityTypeEnum.members : List ActivityTypeEnum :=
  [.MDB_REPLY, .TICKET_RESPONSE, .ASSIGNMENT_UPLOAD, .ASSIGNMENT_MARKING,
   .GDB_MARKING, .SESSION_TRACKING, .EMAIL_RESPONSE]

/-- `valid_types = [item.name for item in ActivityTypeEnum]` (views.py line 133). -/
def ActivityTypeEnum.names : List String :=
  ActivityTypeEnum.members.map ActivityTypeEnum.name

/-- `course_api/models.py` lines 20-27: the closed report-type enumeration. -/
inductive ReportTypeEnum
  | ACTIVITY_SUMMARY
  | PERFORMANCE_ANALYSIS
  | SYSTEM_USAGE
deriving DecidableEq

/-- The `.name` of a `ReportTypeEnum` member. -/
def ReportTypeEnum.name : ReportTypeEnum → String
  | .ACTIVITY_SUMMARY => "ACTIVITY_SUMMARY"
  | .PERFORMANCE_ANALYSIS => "PERFORMANCE_ANALYSIS"
  | .SYSTEM_USAGE => "SYSTEM_USAGE"

/-- The member names of `ReportTypeEnum`. -/
def ReportTypeEnum.names : List String :=
  ["ACTIVITY_SUMMARY", "PERFORMANCE_ANALYSIS", "SYSTEM_USAGE"]

/-- `course_api/models.py` lines 29-36: the report status enumeration. The class
body declares exactly the members `PENDING`, `COMPLETED` and `FAILED`. -/
inductive ReportStatusEnum
  | PENDING
  | COMPLETED
  | FAILED
deriving DecidableEq

/-- The `.name` of a `ReportStatusEnum` member. -/
def ReportStatusEnum.name : ReportStatusEnum → String
  | .PENDING => "PENDING"
  | .COMPLETED => "COMPLETED"
  | .FAILED => "FAILED"

/-- Python attribute access `ReportStatusEnum.<attr>`: yields the member when
`models.py` declares one of that name, and raises `AttributeError` (modelled as
`none`) otherwise. `models.py` declares only `PENDING`, `COMPLETED`, `FAILED`. -/
def ReportStatusEnum.lookup (s : String) : Option ReportStatusEnum :=
  if s = "PENDING" then some .PENDING
  else if s = "COMPLETED" then some .COMPLETED
  else if s = "FAILED" then some .FAILED
  else none

/-- A `Course` row (models.py lines 40-47); `instructor` is a nullable user id. -/
structure Course where
  id : Nat
  course_code : String
  course_title : String
  instructor : Option Nat
deriving DecidableEq

/-- An `ActivityLog` row (models.py lines 49-60). `details` is the JSON payload,
as a list of key-value pairs. -/
structure ActivityLog where
  id : Nat
  instructor : Nat
  course : Option Nat
  activity_type : String
  log_date : Timestamp
  details : List (String × String)
deriving DecidableEq

/-- A `Report` row (models.py lines 62-72); `generated_file` is the stored file
name, absent when no file is attached (a `FileField` with an empty name is
falsy in Python). -/
structure Report where
  id : Nat
  generated_by : Option Nat
  report_type : String
  status : String
  start_date : Date
  end_date : Date
  generated_file : Option String
deriving DecidableEq

/-- A `SystemEventLog` row (models.py lines 85-95), restricted to the fields the
claims observe. -/
structure SystemEvent where
  actor : Option Nat
  event_type : String
deriving DecidableEq

/-- The whole persistent store: the relational tables plus the file storage and
the id sequence used for new rows. -/
structure Db where
  courses : List Course
  activity_logs : List ActivityLog
  reports : List Report
  storage : List String
  events : List SystemEvent
  next_id : Nat
deriving DecidableEq

/-- An authenticated requester: `request.user.id` and `request.user.profile.role`
(roles are the strings ADMIN and INSTRUCTOR, `authentication/models.py`). -/
structure UserCtx where
  id : Nat
  role : String
deriving DecidableEq

/-- Outcome of a view: the uniform JSON envelope (`generate_request_response`),
a streamed file (`FileResponse`), a raised `Http404`, or an unhandled Python
exception propagating out of the view (a 500 without an envelope). -/
inductive HttpResult where
  | resp (ok : Bool) (code : Nat) (msg : String)
  | fileStream (name : String)
  | http404
  | pythonError (msg : String)
deriving DecidableEq

/-- `course_activity/utils.py`: the standardized response envelope. -/
def generate_request_response (ok : Bool) (code : Nat) (msg : String) : HttpResult :=
  HttpResult.resp ok code msg

/-- Python truthiness of `data.get(field)`: absent (`None`) and the empty string
are falsy. -/
def truthy : Option String → Bool
  | none => false
  | some s => decide (s ≠ "")

/-- Body of `POST /reports` (`ReportListView.post`, views.py lines 235-301). -/
structure ReportPostReq where
  report_type : Option String := none
  start_date : Option String := none
  end_date : Option String := none
  instructor_id : Option String := none
deriving DecidableEq

/-- `ReportListView.post` (views.py lines 235-301). After the presence and
date-format checks it immediately evaluates
`Report.objects.create(..., status=ReportStatusEnum.PROCESSING.name)`
(line 255). Python resolves the attribute `PROCESSING` before any row is
written; `models.py` declares no such member, so the access raises
`AttributeError` outside every try block, and the request dies with an
unhandled exception. The remaining lines (report row, event row, log query,
spreadsheet, status transitions) are translated faithfully below but are only
reachable if the attribute lookup were to succeed. -/
def ReportListView.post (db : Db) (u : UserCtx) (req : ReportPostReq) : HttpResult × Db :=
  if !(truthy req.report_type && truthy req.start_date && truthy req.end_date) then
    (generate_request_response false 400 "All fields are required.", db)
  else
    match Date.fromisoformat (req.start_date.getD ""), Date.fromisoformat (req.end_date.getD "") with
    | some start_date, some end_date =>
        let rt := req.report_type.getD ""
        match ReportStatusEnum.lookup "PROCESSING" with
        | none => (HttpResult.pythonError "AttributeError: PROCESSING", db)
        | some procMember =>
            let report : Report :=
              { id := db.next_id, generated_by := some u.id, report_type := rt,
                status := procMember.name, start_date := start_date, end_date := end_date,
                generated_file := none }
            let db1 : Db :=
              { db with
                reports := db.reports ++ [report],
                events := db.events ++ [⟨some u.id, "REPORT_GENERATED"⟩],
                next_id := db.next_id + 1 }
            let logsQ := db1.activity_logs.filter
              (fun l => dateLe start_date l.log_date.date && dateLe l.log_date.date end_date)
            let filteredQ : Except String (List ActivityLog) :=
              match req.instructor_id with
              | some iid =>
                  if iid ≠ "" ∧ iid ≠ "ALL" then
                    match iid.toNat? with
                    | some n => Except.ok (logsQ.filter (fun l => decide (l.instructor = n)))
                    | none => Except.error ("Field id expected a number but got " ++ iid ++ ".")
                  else Except.ok logsQ
              | none => Except.ok logsQ
            let failReports :=
              db1.reports.map (fun r =>
                if r.id = report.id then { r with status := ReportStatusEnum.FAILED.name } else r)
            match filteredQ with
            | Except.error msg =>
                (generate_request_response false 500 msg, { db1 with reports := failReports })
            | Except.ok logs =>
                if logs.isEmpty then
                  (generate_request_response false 500 "No activity data found for the selected criteria.",
                   { db1 with reports := failReports })
                else
                  let fileName := "report_" ++ toString report.id ++ "_" ++ rt ++ ".xlsx"
                  let doneReports :=
                    db1.reports.map (fun r =>
                      if r.id = report.id then
                        { r with status := ReportStatusEnum.COMPLETED.name,
                                 generated_file := some fileName }
                      else r)
                  (generate_request_response true 201 "Report generated successfully.",
                   { db1 with storage := db1.storage ++ [fileName], reports := doneReports })
    | _, _ => (generate_request_response false 400 "Invalid date format.", db)

/-- `ReportListView.delete` (views.py lines 303-321): looks the report up by
primary key, rejects requesters that are neither admins nor the creator,
deletes the stored file when one exists, then deletes the row. -/
def ReportListView.delete (db : Db) (u : UserCtx) (rid : Option Nat) : HttpResult × Db :=
  match rid with
  | none => (generate_request_response false 400 "Report ID is required.", db)
  | some rid =>
      match db.reports.find? (fun r => decide (r.id = rid)) with
      | none => (generate_request_response false 404 "Report not found.", db)
      | some rep =>
          if u.role ≠ "ADMIN" ∧ rep.generated_by ≠ some u.id then
            (generate_request_response false 403 "Permission denied.", db)
          else
            let db1 : Db :=
              match rep.generated_file with
              | some f => { db with storage := db.storage.filter (fun g => decide (g ≠ f)) }
              | none => db
            (generate_request_response true 200 "Report deleted successfully.",
             { db1 with reports := db1.reports.filter (fun r => decide (r.id ≠ rid)) })

/-- `ReportDownloadView.get` (views.py lines 360-383): `permission_classes` is
`AllowAny` and the ownership check is commented out, so the requester argument
(absent for an unauthenticated caller) is never consulted. -/
def ReportDownloadView.get (db : Db) (requester : Option UserCtx) (pk : Nat) : HttpResult :=
  match db.reports.find? (fun r => decide (r.id = pk)) with
  | some report =>
      if report.status = ReportStatusEnum.COMPLETED.name ∧ report.generated_file.isSome then
        HttpResult.fileStream (report.generated_file.getD "")
      else if report.status = ReportStatusEnum.FAILED.name then
        generate_request_response false 400 "Report generation failed."
      else
        generate_request_response false 400 "Report is still being processed."
  | none => HttpResult.http404

/-- Query parameters of `GET /activities` (`ActivityLogView.get`, views.py
lines 95-123). `course_id` arrives as an id; the date bounds arrive as raw
strings and are parsed inside the handler. -/
structure ActivityFilters where
  activity_type : Option String := none
  course_id : Option Nat := none
  date_from : Option String := none
  date_to : Option String := none
deriving DecidableEq

/-- The retrieval order of `ActivityLog` querysets: `Meta.ordering` is
`[-log_date]`, i.e. `a` precedes `b` when the instant of `b` is at most the
instant of `a` (newest first). -/
def logOrd (a b : ActivityLog) : Prop :=
  b.log_date.tick ≤ a.log_date.tick

instance : DecidableRel logOrd :=
  fun a b => Nat.decLe b.log_date.tick a.log_date.tick

instance : IsTotal ActivityLog logOrd :=
  ⟨fun a b => Nat.le_total b.log_date.tick a.log_date.tick⟩

instance : IsTrans ActivityLog logOrd :=
  ⟨fun _ _ _ h1 h2 => Nat.le_trans h2 h1⟩

/-- `ActivityLog.objects`: rows come back ordered by `Meta.ordering`
(`-log_date`, newest first). -/
def ActivityLog.objectsOrdered (db : Db) : List ActivityLog :=
  List.insertionSort logOrd db.activity_logs

/-- views.py lines 105-106: `if activity_type: logs = logs.filter(activity_type=...)`. -/
def stageType (t : Option String) (logs : List ActivityLog) : List ActivityLog :=
  match t with
  | some s => if s ≠ "" then logs.filter (fun l => decide (l.activity_type = s)) else logs
  | none => logs

/-- views.py lines 107-108: `if course_id: logs = logs.filter(course_id=...)`. -/
def stageCourse (c : Option Nat) (logs : List ActivityLog) : List ActivityLog :=
  match c with
  | some cid => logs.filter (fun l => decide (l.course = some cid))
  | none => logs

/-- views.py lines 109-114: the `date_from` filter; a `ValueError` from
`strptime` is swallowed and the filter is dropped. -/
def stageFrom (s : Option String) (logs : List ActivityLog) : List ActivityLog :=
  match s with
  | some str =>
      if str ≠ "" then
        match strptimeYMD str with
        | some d => logs.filter (fun l => dateLe d l.log_date.date)
        | none => logs
      else logs
  | none => logs

/-- views.py lines 115-120: the `date_to` filter; a `ValueError` from
`strptime` is swallowed and the filter is dropped. -/
def stageTo (s : Option String) (logs : List ActivityLog) : List ActivityLog :=
  match s with
  | some str =>
      if str ≠ "" then
        match strptimeYMD str with
        | some d => logs.filter (fun l => dateLe l.log_date.date d)
        | none => logs
      else logs
  | none => logs

/-- `ActivityLogView.get` (views.py lines 95-123): the instructor sees only
rows whose `instructor` is the requesting user, successively narrowed by the
four optional filters, in the ordering of the model queryset. -/
def ActivityLogView.get (db : Db) (u : UserCtx) (f : ActivityFilters) : List ActivityLog :=
  stageTo f.date_to (stageFrom f.date_from (stageCourse f.course_id (stageType f.activity_type
    ((ActivityLog.objectsOrdered db).filter (fun l => decide (l.instructor = u.id))))))

/-- Body of `POST /activities` (`ActivityLogView.post`, views.py lines 125-167). -/
structure ActivityPostReq where
  activity_type : Option String := none
  course_id : Option Nat := none
  details : List (String × String) := []
  log_date : Option String := none
deriving DecidableEq

/-- `ActivityLogView.post` (views.py lines 125-167): validates the category
against the enumeration first, then requires a course id, then fetches the
course restricted to `instructor=request.user` (a miss is the 404 branch), and
finally creates the log row owned by the requester; `log_date` is stored inside
`details` because the column is `auto_now_add`. -/
def ActivityLogView.post (db : Db) (u : UserCtx) (now : Timestamp) (req : ActivityPostReq) :
    HttpResult × Db :=
  match req.activity_type with
  | some aty =>
      if aty ∈ ActivityTypeEnum.names then
        match req.course_id with
        | none => (generate_request_response false 400 "Course is required.", db)
        | some cid =>
            match db.courses.find? (fun c => decide (c.id = cid) && decide (c.instructor = some u.id)) with
            | none =>
                (generate_request_response false 404 "Course not found or you are not assigned to it.", db)
            | some course =>
                let details :=
                  match req.log_date with
                  | some ld => if ld ≠ "" then req.details ++ [("custom_log_date", ld)] else req.details
                  | none => req.details
                let log : ActivityLog :=
                  { id := db.next_id, instructor := u.id, course := some course.id,
                    activity_type := aty, log_date := now, details := details }
                (generate_request_response true 201 "Activity logged successfully.",
                 { db with activity_logs := db.activity_logs ++ [log], next_id := db.next_id + 1 })
      else (generate_request_response false 400 "Invalid activity type specified.", db)
  | none => (generate_request_response false 400 "Invalid activity type specified.", db)

/-- Rounds a rational to the nearest integer, ties to even, as Python `round`
does on an exact value. -/
def roundHalfToEven (q : ℚ) : ℤ :=
  let f := ⌊q⌋
  let frac := q - f
  if frac < 1 / 2 then f
  else if 1 / 2 < frac then f + 1
  else if f % 2 = 0 then f else f + 1

/-- Python `round(x, 1)`: one decimal digit, ties to even. -/
def pyRound1 (q : ℚ) : ℚ :=
  (roundHalfToEven (q * 10) : ℚ) / 10

/-- `calculate_growth` (`authentication/views.py` lines 295-299). -/
def calculate_growth (current_count previous_count : ℕ) : ℚ :=
  if previous_count = 0 then (if 0 < current_count then 100 else 0)
  else pyRound1 (((current_count : ℚ) - (previous_count : ℚ)) / (previous_count : ℚ) * 100)

/-! ### Fixtures for concrete evaluations -/

/-- An admin requester. -/
def adminU : UserCtx := ⟨1, "ADMIN"⟩

/-- A store holding one activity log dated 2024-01-15, inside the period
requested by `janReq`. -/
def janDb : Db :=
  { courses := [], activity_logs := [⟨1, 2, none, "MDB_REPLY", ⟨⟨2024, 1, 15⟩, 5⟩, []⟩],
    reports := [], storage := [], events := [], next_id := 2 }

/-- A store holding one activity log dated 2023-12-01, outside the period
requested by `janReq`, and no reports. -/
def emptyJanDb : Db :=
  { courses := [], activity_logs := [⟨1, 2, none, "MDB_REPLY", ⟨⟨2023, 12, 1⟩, 5⟩, []⟩],
    reports := [], storage := [], events := [], next_id := 2 }

/-- A syntactically valid report request for January 2024. -/
def janReq : ReportPostReq :=
  { report_type := some "ACTIVITY_SUMMARY", start_date := some "2024-01-01",
    end_date := some "2024-01-31" }

/-- A report request whose type is outside the `ReportTypeEnum` enumeration. -/
def badTypeReq : ReportPostReq :=
  { report_type := some "WRONG_TYPE", start_date := some "2024-01-01",
    end_date := some "2024-01-31" }

/-- Whether a result is a 400 envelope. -/
def HttpResult.is400 : HttpResult → Bool
  | .resp _ code _ => code == 400
  | _ => false

/-! ### C1, C2, C3: report submission -/

/-- C1: a submission with a valid report_type, well-formed ISO dates and one
activity log inside the period does NOT produce a COMPLETED report with an
artifact and a 201 response: evaluating
`Report.objects.create(..., status=ReportStatusEnum.PROCESSING.name)` raises
`AttributeError` (models.py declares no PROCESSING member) before any row is
written, so the request dies as an unhandled 500 and the store is unchanged. -/
theorem report_submit_valid_input_crashes :
    "ACTIVITY_SUMMARY" ∈ ReportTypeEnum.names ∧
    Date.fromisoformat "2024-01-01" = some ⟨2024, 1, 1⟩ ∧
    Date.fromisoformat "2024-01-31" = some ⟨2024, 1, 31⟩ ∧
    (janDb.activity_logs.filter
      (fun l => dateLe ⟨2024, 1, 1⟩ l.log_date.date && dateLe l.log_date.date ⟨2024, 1, 31⟩)).length = 1 ∧
    ReportListView.post janDb adminU janReq =
      (HttpResult.pythonError "AttributeError: PROCESSING", janDb) := by
  decide

/-- C2: a submission with well-formed dates and zero matching activity logs
does NOT produce a FAILED report: the same missing `PROCESSING` member makes
the request die with an unhandled `AttributeError` before the Report row is
created, so no Report (in particular no FAILED one) exists afterwards. -/
theorem report_submit_no_data_crashes :
    (emptyJanDb.activity_logs.filter
      (fun l => dateLe ⟨2024, 1, 1⟩ l.log_date.date && dateLe l.log_date.date ⟨2024, 1, 31⟩)).length = 0 ∧
    ReportListView.post emptyJanDb adminU janReq =
      (HttpResult.pythonError "AttributeError: PROCESSING", emptyJanDb) ∧
    (ReportListView.post emptyJanDb adminU janReq).2.reports = [] := by
  decide

/-- C3 counterexample: a submission whose report_type is outside the closed
enumeration does not fail with a 400 InvalidInput envelope; the handler never
validates report_type and the request dies with the unhandled
`AttributeError` instead (no Report row is created). -/
theorem report_submit_bad_type_not_400 :
    "WRONG_TYPE" ∉ ReportTypeEnum.names ∧
    ReportListView.post emptyJanDb adminU badTypeReq =
      (HttpResult.pythonError "AttributeError: PROCESSING", emptyJanDb) ∧
    (ReportListView.post emptyJanDb adminU badTypeReq).1.is400 = false := by
  decide

/-- C3 (amended): `ReportListView.post` never validates report_type. A
submission whose report_type is any non-empty string outside the enumeration,
with parseable dates, proceeds exactly like a valid one: it reaches the
`ReportStatusEnum.PROCESSING` attribute access and dies with an unhandled
`AttributeError`, leaving the store unchanged (so no Report row is created,
but no 400 InvalidInput is returned either). -/
theorem report_type_not_validated (db : Db) (u : UserCtx) (req : ReportPostReq)
    (rt sds eds : String) (sd ed : Date)
    (hrt : req.report_type = some rt) (hne : rt ≠ "")
    (hnotin : rt ∉ ReportTypeEnum.names)
    (hsds : req.start_date = some sds) (heds : req.end_date = some eds)
    (hpsd : Date.fromisoformat sds = some sd) (hped : Date.fromisoformat eds = some ed) :
    ReportListView.post db u req = (HttpResult.pythonError "AttributeError: PROCESSING", db) := by
  have hsne : sds ≠ "" := by
    intro e
    rw [e] at hpsd
    have : Date.fromisoformat "" = none := by decide
    rw [this] at hpsd
    exact Option.noConfusion hpsd
  have hene : eds ≠ "" := by
    intro e
    rw [e] at hped
    have : Date.fromisoformat "" = none := by decide
    rw [this] at hped
    exact Option.noConfusion hped
  have hlk : ReportStatusEnum.lookup "PROCESSING" = none := by decide
  simp [ReportListView.post, hrt, hsds, heds, truthy, hne, hsne, hene, hpsd, hped, hlk]

/-- C3 witness: the amended behaviour at a concrete unknown report type. -/
theorem report_type_not_validated_witness :
    ReportListView.post emptyJanDb adminU badTypeReq =
      (HttpResult.pythonError "AttributeError: PROCESSING", emptyJanDb) :=
  report_type_not_validated emptyJanDb adminU badTypeReq "WRONG_TYPE" "2024-01-01" "2024-01-31"
    ⟨2024, 1, 1⟩ ⟨2024, 1, 31⟩ rfl (by decide) (by decide) rfl rfl (by decide) (by decide)

/-! ### C4: recording an activity -/

/-- The request carries a category that is in the closed enumeration. -/
def validCat (req : ActivityPostReq) : Prop :=
  ∃ aty, req.activity_type = some aty ∧ aty ∈ ActivityTypeEnum.names

/-- C4 (amended): `ActivityLogView.post` validates the category first; a
request with an invalid category gets the 400 InvalidInput envelope even when
the named course is also not owned by the requester. When the category is
valid, a missing course id gets a 400, and a course id with no course owned by
the requesting instructor gets the 404 envelope. In every failure case the
store is unchanged (no ActivityLog row); otherwise exactly one new log owned by
the requester is appended. -/
theorem activity_record_spec (db : Db) (u : UserCtx) (now : Timestamp) (req : ActivityPostReq) :
    (¬ validCat req →
       ActivityLogView.post db u now req =
         (generate_request_response false 400 "Invalid activity type specified.", db)) ∧
    (validCat req → req.course_id = none →
       ActivityLogView.post db u now req =
         (generate_request_response false 400 "Course is required.", db)) ∧
    (∀ cid, validCat req → req.course_id = some cid →
       db.courses.find? (fun c => decide (c.id = cid) && decide (c.instructor = some u.id)) = none →
       ActivityLogView.post db u now req =
         (generate_request_response false 404 "Course not found or you are not assigned to it.", db)) ∧
    (∀ cid course, validCat req → req.course_id = some cid →
       db.courses.find? (fun c => decide (c.id = cid) && decide (c.instructor = some u.id)) = some course →
       (ActivityLogView.post db u now req).1 =
         generate_request_response true 201 "Activity logged successfully." ∧
       ∃ log, (ActivityLogView.post db u now req).2.activity_logs = db.activity_logs ++ [log] ∧
         log.instructor = u.id) := by
  match haty : req.activity_type with
  | none =>
      refine ⟨fun _ => by simp [ActivityLogView.post, haty], ?_, ?_, ?_⟩
      · rintro ⟨aty, he, _⟩ _
        rw [haty] at he
        exact Option.noConfusion he
      · rintro cid ⟨aty, he, _⟩ _ _
        rw [haty] at he
        exact Option.noConfusion he
      · rintro cid course ⟨aty, he, _⟩ _ _
        rw [haty] at he
        exact Option.noConfusion he
  | some aty =>
      by_cases hmem : aty ∈ ActivityTypeEnum.names
      · refine ⟨?_, ?_, ?_, ?_⟩
        · intro hnv
          exact absurd ⟨aty, haty, hmem⟩ hnv
        · intro _ hcid
          simp [ActivityLogView.post, haty, hmem, hcid]
        · intro cid _ hcid hfind
          simp [ActivityLogView.post, haty, hmem, hcid, hfind]
        · intro cid course _ hcid hfind
          refine ⟨by simp [ActivityLogView.post, haty, hmem, hcid, hfind], ?_⟩
          refine ⟨⟨db.next_id, u.id, some course.id, aty, now,
            match req.log_date with
            | some ld => if ld ≠ "" then req.details ++ [("custom_log_date", ld)] else req.details
            | none => req.details⟩, ?_, rfl⟩
          simp [ActivityLogView.post, haty, hmem, hcid, hfind]
      · refine ⟨?_, ?_, ?_, ?_⟩
        · intro _
          simp [ActivityLogView.post, haty, hmem]
        · rintro ⟨aty2, he2, hm2⟩ _
          rw [haty] at he2
          cases he2
          exact absurd hm2 hmem
        · rintro cid ⟨aty2, he2, hm2⟩ _ _
          rw [haty] at he2
          cases he2
          exact absurd hm2 hmem
        · rintro cid course ⟨aty2, he2, hm2⟩ _ _
          rw [haty] at he2
          cases he2
          exact absurd hm2 hmem

/-- A store with one course (id 1) owned by instructor 2. -/
def courseDb : Db :=
  { courses := [⟨1, "CS101", "Intro to CS", some 2⟩], activity_logs := [], reports := [],
    storage := [], events := [], next_id := 5 }

/-- An instructor who owns no course in `courseDb`. -/
def instr1 : UserCtx := ⟨1, "INSTRUCTOR"⟩

/-- The instructor owning course 1 of `courseDb`. -/
def instr2 : UserCtx := ⟨2, "INSTRUCTOR"⟩

/-- A request instant. -/
def t0 : Timestamp := ⟨⟨2024, 2, 1⟩, 50⟩

/-- Request with an out-of-enumeration category against a course the requester
does not own. -/
def badCatReq : ActivityPostReq := { activity_type := some "QUIZ_MARKING", course_id := some 1 }

/-- Request with a valid category against course 1. -/
def goodCatReq : ActivityPostReq := { activity_type := some "MDB_REPLY", course_id := some 1 }

/-- C4 counterexample: instructor 1 does not own course 1, yet the request with
an invalid category returns the 400 InvalidInput envelope, not
NotFound (404) and not PermissionDenied (403); the claim as stated requires a
404/403 answer whenever the named course is not owned by the requester. -/
theorem activity_unowned_course_gets_400_cex :
    courseDb.courses.find? (fun c => decide (c.id = 1) && decide (c.instructor = some 1)) = none ∧
    ActivityLogView.post courseDb instr1 t0 badCatReq =
      (HttpResult.resp false 400 "Invalid activity type specified.", courseDb) ∧
    ¬ (ActivityLogView.post courseDb instr1 t0 badCatReq).1 =
        HttpResult.resp false 404 "Course not found or you are not assigned to it." ∧
    ¬ (ActivityLogView.post courseDb instr1 t0 badCatReq).1 =
        HttpResult.resp false 403 "Permission denied." := by
  decide

/-- C4 witness: on the owning instructor and a valid category the amended
theorem yields the 201 creation. -/
theorem activity_record_spec_witness :
    (ActivityLogView.post courseDb instr2 t0 goodCatReq).1 =
      generate_request_response true 201 "Activity logged successfully." :=
  ((activity_record_spec courseDb instr2 t0 goodCatReq).2.2.2 1 ⟨1, "CS101", "Intro to CS", some 2⟩
    ⟨"MDB_REPLY", rfl, by decide⟩ rfl (by decide)).1

/-! ### C5, C10: listing activities -/

theorem stageType_sublist (t : Option String) (logs : List ActivityLog) :
    List.Sublist (stageType t logs) logs := by
  cases t with
  | none => exact List.Sublist.refl _
  | some s =>
      simp only [stageType]
      split
      · exact List.filter_sublist _
      · exact List.Sublist.refl _

theorem stageCourse_sublist (c : Option Nat) (logs : List ActivityLog) :
    List.Sublist (stageCourse c logs) logs := by
  cases c with
  | none => exact List.Sublist.refl _
  | some cid => exact List.filter_sublist _

theorem stageFrom_sublist (s : Option String) (logs : List ActivityLog) :
    List.Sublist (stageFrom s logs) logs := by
  cases s with
  | none => exact List.Sublist.refl _
  | some str =>
      simp only [stageFrom]
      split
      · split
        · exact List.filter_sublist _
        · exact List.Sublist.refl _
      · exact List.Sublist.refl _

theorem stageTo_sublist (s : Option String) (logs : List ActivityLog) :
    List.Sublist (stageTo s logs) logs := by
  cases s with
  | none => exact List.Sublist.refl _
  | some str =>
      simp only [stageTo]
      split
      · split
        · exact List.filter_sublist _
        · exact List.Sublist.refl _
      · exact List.Sublist.refl _

theorem activityGet_sublist (db : Db) (u : UserCtx) (f : ActivityFilters) :
    List.Sublist (ActivityLogView.get db u f)
      ((ActivityLog.objectsOrdered db).filter (fun l => decide (l.instructor = u.id))) := by
  unfold ActivityLogView.get
  exact (stageTo_sublist _ _).trans ((stageFrom_sublist _ _).trans
    ((stageCourse_sublist _ _).trans (stageType_sublist _ _)))

/-- C5: whatever the four filter parameters are, the listing returns only rows
whose instructor is the requesting user, in the queryset ordering
(`-log_date`, newest first). -/
theorem activity_listing_scoped_and_sorted (db : Db) (u : UserCtx) (f : ActivityFilters) :
    (∀ l ∈ ActivityLogView.get db u f, l.instructor = u.id) ∧
    (ActivityLogView.get db u f).Pairwise logOrd := by
  constructor
  · intro l hl
    have hmem := (activityGet_sublist db u f).subset hl
    exact of_decide_eq_true (List.mem_filter.mp hmem).2
  · have hsorted : (ActivityLog.objectsOrdered db).Pairwise logOrd :=
      List.sorted_insertionSort logOrd db.activity_logs
    exact ((hsorted.filter _).sublist (activityGet_sublist db u f))

/-- A store with logs of two instructors, out of creation order. -/
def twoInstrDb : Db :=
  { courses := [],
    activity_logs :=
      [⟨1, 1, none, "MDB_REPLY", ⟨⟨2024, 1, 1⟩, 10⟩, []⟩,
       ⟨2, 2, none, "GDB_MARKING", ⟨⟨2024, 1, 2⟩, 20⟩, []⟩,
       ⟨3, 1, none, "EMAIL_RESPONSE", ⟨⟨2024, 1, 3⟩, 30⟩, []⟩],
    reports := [], storage := [], events := [], next_id := 4 }

/-- C5 witness: instantiating the listing theorem on `twoInstrDb` for
instructor 1 and the empty filter set. -/
theorem activity_listing_scoped_and_sorted_witness :
    (⟨3, 1, none, "EMAIL_RESPONSE", ⟨⟨2024, 1, 3⟩, 30⟩, []⟩ : ActivityLog) ∈
      ActivityLogView.get twoInstrDb instr1 {} ∧
    (⟨3, 1, none, "EMAIL_RESPONSE", ⟨⟨2024, 1, 3⟩, 30⟩, []⟩ : ActivityLog).instructor = instr1.id ∧
    (ActivityLogView.get twoInstrDb instr1 {}).Pairwise logOrd :=
  ⟨by decide,
   (activity_listing_scoped_and_sorted twoInstrDb instr1 {}).1 _ (by decide),
   (activity_listing_scoped_and_sorted twoInstrDb instr1 {}).2⟩

theorem stageFrom_badDate {s : String} (h : strptimeYMD s = none) (logs : List ActivityLog) :
    stageFrom (some s) logs = logs := by
  simp [stageFrom, h]

theorem stageTo_badDate {s : String} (h : strptimeYMD s = none) (logs : List ActivityLog) :
    stageTo (some s) logs = logs := by
  simp [stageTo, h]

/-- C10: a `date_from` or `date_to` parameter that does not parse as a
YYYY-MM-DD date is silently dropped: the listing result is the one obtained
with that filter absent, the remaining filters still applying. -/
theorem unparseable_date_filter_dropped (db : Db) (u : UserCtx) (f : ActivityFilters)
    (s : String) (hbad : strptimeYMD s = none) :
    ActivityLogView.get db u { f with date_from := some s } =
      ActivityLogView.get db u { f with date_from := none } ∧
    ActivityLogView.get db u { f with date_to := some s } =
      ActivityLogView.get db u { f with date_to := none } := by
  constructor
  · simp only [ActivityLogView.get]
    rw [stageFrom_badDate hbad]
    rfl
  · simp only [ActivityLogView.get]
    rw [stageTo_badDate hbad]
    rfl

/-- C10 witness: the concrete malformed bound 2024-13-99 is dropped. -/
theorem unparseable_date_filter_dropped_witness :
    ActivityLogView.get twoInstrDb instr1 { ({} : ActivityFilters) with date_from := some "2024-13-99" } =
      ActivityLogView.get twoInstrDb instr1 { ({} : ActivityFilters) with date_from := none } ∧
    ActivityLogView.get twoInstrDb instr1 { ({} : ActivityFilters) with date_to := some "2024-13-99" } =
      ActivityLogView.get twoInstrDb instr1 { ({} : ActivityFilters) with date_to := none } :=
  unparseable_date_filter_dropped twoInstrDb instr1 {} "2024-13-99" (by decide)

/-! ### C6: growth calculation -/

theorem roundHalfToEven_intCast (n : ℤ) : roundHalfToEven ((n : ℚ)) = n := by
  simp [roundHalfToEven, Int.floor_intCast]

theorem pyRound1_intCast (q : ℚ) (n : ℤ) (h : q * 10 = (n : ℚ)) :
    pyRound1 q = (n : ℚ) / 10 := by
  rw [pyRound1, h, roundHalfToEven_intCast]

/-- C6: the growth helper returns 0 when both periods are 0, 100 when only the
previous period is 0, and otherwise the previous-relative percentage rounded to
one decimal; in particular growth(0,0)=0, growth(5,0)=100, growth(15,10)=50 and
growth(5,10)=-50. -/
theorem calculate_growth_spec (c p : ℕ) :
    (p = 0 → c = 0 → calculate_growth c p = 0) ∧
    (p = 0 → 0 < c → calculate_growth c p = 100) ∧
    (p ≠ 0 → calculate_growth c p = pyRound1 (((c : ℚ) - (p : ℚ)) / (p : ℚ) * 100)) ∧
    calculate_growth 0 0 = 0 ∧ calculate_growth 5 0 = 100 ∧
    calculate_growth 15 10 = 50 ∧ calculate_growth 5 10 = -50 := by
  refine ⟨?_, ?_, ?_, ?_, ?_, ?_, ?_⟩
  · intro hp hc
    simp [calculate_growth, hp, hc]
  · intro hp hc
    simp [calculate_growth, hp, hc]
  · intro hp
    simp [calculate_growth, hp]
  · norm_num [calculate_growth]
  · norm_num [calculate_growth]
  · have h1 : calculate_growth 15 10 = pyRound1 ((((15 : ℕ) : ℚ) - ((10 : ℕ) : ℚ)) / ((10 : ℕ) : ℚ) * 100) := by
      norm_num [calculate_growth]
    rw [h1, pyRound1_intCast _ 500 (by push_cast; norm_num)]
    norm_num
  · have h1 : calculate_growth 5 10 = pyRound1 ((((5 : ℕ) : ℚ) - ((10 : ℕ) : ℚ)) / ((10 : ℕ) : ℚ) * 100) := by
      norm_num [calculate_growth]
    rw [h1, pyRound1_intCast _ (-500) (by push_cast; norm_num)]
    norm_num

/-- C6 witness: the general branch instantiated at (15, 10) and the
previous-zero branch at (5, 0). -/
theorem calculate_growth_spec_witness :
    calculate_growth 15 10 = pyRound1 ((((15 : ℕ) : ℚ) - ((10 : ℕ) : ℚ)) / ((10 : ℕ) : ℚ) * 100) ∧
    calculate_growth 5 0 = 100 :=
  ⟨(calculate_growth_spec 15 10).2.2.1 (by norm_num),
   (calculate_growth_spec 5 0).2.1 rfl (by norm_num)⟩

/-! ### C7, C8, C9: deleting and downloading reports -/

/-- C7: deleting a report: a missing id is a 404 and the store is untouched; a
requester that is neither an admin nor the creator gets a 403 and the store
(report and artifact included) is untouched; the owner or an admin gets a 200,
after which no report with that id remains, the artifact file is gone from
storage, and a download of that id raises `Http404` for every caller. -/
theorem report_delete_spec (db : Db) (u : UserCtx) (rid : Nat) :
    (db.reports.find? (fun r => decide (r.id = rid)) = none →
       ReportListView.delete db u (some rid) =
         (generate_request_response false 404 "Report not found.", db)) ∧
    (∀ rep, db.reports.find? (fun r => decide (r.id = rid)) = some rep →
       ((u.role ≠ "ADMIN" ∧ rep.generated_by ≠ some u.id →
           ReportListView.delete db u (some rid) =
             (generate_request_response false 403 "Permission denied.", db)) ∧
        (u.role = "ADMIN" ∨ rep.generated_by = some u.id →
           (ReportListView.delete db u (some rid)).1 =
             generate_request_response true 200 "Report deleted successfully." ∧
           (∀ r ∈ (ReportListView.delete db u (some rid)).2.reports, r.id ≠ rid) ∧
           (∀ f, rep.generated_file = some f →
              f ∉ (ReportListView.delete db u (some rid)).2.storage) ∧
           (∀ v, ReportDownloadView.get (ReportListView.delete db u (some rid)).2 v rid =
              HttpResult.http404)))) := by
  constructor
  · intro h
    simp [ReportListView.delete, h]
  · intro rep hrep
    constructor
    · intro hd
      simp [ReportListView.delete, hrep, hd]
    · intro hperm
      have hcond : ¬ (u.role ≠ "ADMIN" ∧ rep.generated_by ≠ some u.id) := by
        rcases hperm with h | h
        · exact fun hx => hx.1 h
        · exact fun hx => hx.2 h
      have hpost :
          ReportListView.delete db u (some rid) =
            (generate_request_response true 200 "Report deleted successfully.",
             { (match rep.generated_file with
                | some f => { db with storage := db.storage.filter (fun g => decide (g ≠ f)) }
                | none => db) with
               reports := db.reports.filter (fun r => decide (r.id ≠ rid)) }) := by
        simp only [ReportListView.delete, hrep, if_neg hcond]
        cases rep.generated_file <;> rfl
      refine ⟨by rw [hpost], ?_, ?_, ?_⟩
      · intro r hr
        rw [hpost] at hr
        exact of_decide_eq_true (List.mem_filter.mp hr).2
      · intro f hf
        rw [hpost, hf]
        intro hmem
        exact absurd rfl (of_decide_eq_true (List.mem_filter.mp hmem).2)
      · intro v
        rw [hpost]
        have hnone :
            (db.reports.filter (fun r => decide (r.id ≠ rid))).find?
              (fun r => decide (r.id = rid)) = none := by
          refine List.find?_eq_none.mpr ?_
          intro r hr hpr
          exact absurd (of_decide_eq_true hpr) (of_decide_eq_true (List.mem_filter.mp hr).2)
        simp only [ReportDownloadView.get]
        rw [hnone]

/-- A report row with a completed artifact. -/
def doneRep : Report :=
  ⟨1, some 1, "ACTIVITY_SUMMARY", "COMPLETED", ⟨2024, 1, 1⟩, ⟨2024, 1, 31⟩, some "r1.xlsx"⟩

/-- A store holding `doneRep`, its stored artifact, a failed report and a
pending report. -/
def reportsDb : Db :=
  { courses := [], activity_logs := [],
    reports :=
      [doneRep,
       ⟨2, some 1, "ACTIVITY_SUMMARY", "FAILED", ⟨2024, 1, 1⟩, ⟨2024, 1, 31⟩, none⟩,
       ⟨3, some 1, "ACTIVITY_SUMMARY", "PENDING", ⟨2024, 1, 1⟩, ⟨2024, 1, 31⟩, none⟩],
    storage := ["r1.xlsx"], events := [], next_id := 4 }

/-- C7 witness: an admin deletes report 1; the response is the 200 envelope and
a subsequent download of id 1 raises `Http404`. -/
theorem report_delete_spec_witness :
    (ReportListView.delete reportsDb ⟨9, "ADMIN"⟩ (some 1)).1 =
      generate_request_response true 200 "Report deleted successfully." ∧
    ReportDownloadView.get (ReportListView.delete reportsDb ⟨9, "ADMIN"⟩ (some 1)).2 none 1 =
      HttpResult.http404 :=
  ⟨(((report_delete_spec reportsDb ⟨9, "ADMIN"⟩ 1).2 doneRep rfl).2 (Or.inl rfl)).1,
   (((report_delete_spec reportsDb ⟨9, "ADMIN"⟩ 1).2 doneRep rfl).2 (Or.inl rfl)).2.2.2 none⟩

/-- C8: for an existing report, the download streams the artifact exactly when
the status is COMPLETED and an artifact exists; a FAILED report yields the
user-visible generation-failed envelope, and any other non-COMPLETED status
yields the still-processing envelope, both plain 400 responses with no file
content. -/
theorem report_download_status_gate (db : Db) (v : Option UserCtx) (pk : Nat) (rep : Report)
    (hfind : db.reports.find? (fun r => decide (r.id = pk)) = some rep) :
    ((∃ f, ReportDownloadView.get db v pk = HttpResult.fileStream f) ↔
       (rep.status = ReportStatusEnum.COMPLETED.name ∧ ∃ f, rep.generated_file = some f)) ∧
    (∀ f, rep.generated_file = some f → rep.status = ReportStatusEnum.COMPLETED.name →
       ReportDownloadView.get db v pk = HttpResult.fileStream f) ∧
    (rep.status = ReportStatusEnum.FAILED.name →
       ReportDownloadView.get db v pk =
         generate_request_response false 400 "Report generation failed.") ∧
    (rep.status ≠ ReportStatusEnum.COMPLETED.name → rep.status ≠ ReportStatusEnum.FAILED.name →
       ReportDownloadView.get db v pk =
         generate_request_response false 400 "Report is still being processed.") := by
  refine ⟨?_, ?_, ?_, ?_⟩
  · constructor
    · rintro ⟨f, hf⟩
      simp only [ReportDownloadView.get, hfind] at hf
      split_ifs at hf with h1 h2
      · exact ⟨h1.1, Option.isSome_iff_exists.mp h1.2⟩
      · exact HttpResult.noConfusion hf
      · exact HttpResult.noConfusion hf
    · rintro ⟨hst, f, hf⟩
      refine ⟨f, ?_⟩
      simp [ReportDownloadView.get, hfind, hst, hf]
  · intro f hf hst
    simp [ReportDownloadView.get, hfind, hst, hf]
  · intro hst
    have h1 : ¬ (rep.status = ReportStatusEnum.COMPLETED.name ∧ rep.generated_file.isSome = true) :=
      fun hx => absurd (hst ▸ hx.1) (by decide)
    simp [ReportDownloadView.get, hfind, h1, hst, generate_request_response]
    intro h
    exact absurd h (by decide)
  · intro hnc hnf
    simp [ReportDownloadView.get, hfind, hnc, hnf, generate_request_response]

/-- C8 witness: in `reportsDb`, report 1 (COMPLETED, with artifact) streams its
file, report 2 (FAILED) yields the generation-failed envelope and report 3
(PENDING) the still-processing envelope. -/
theorem report_download_status_gate_witness :
    ReportDownloadView.get reportsDb none 1 = HttpResult.fileStream "r1.xlsx" ∧
    ReportDownloadView.get reportsDb none 2 =
      generate_request_response false 400 "Report generation failed." ∧
    ReportDownloadView.get reportsDb none 3 =
      generate_request_response false 400 "Report is still being processed." :=
  ⟨(report_download_status_gate reportsDb none 1 doneRep rfl).2.1 "r1.xlsx" rfl rfl,
   (report_download_status_gate reportsDb none 2
      ⟨2, some 1, "ACTIVITY_SUMMARY", "FAILED", ⟨2024, 1, 1⟩, ⟨2024, 1, 31⟩, none⟩ rfl).2.2.1 rfl,
   (report_download_status_gate reportsDb none 3
      ⟨3, some 1, "ACTIVITY_SUMMARY", "PENDING", ⟨2024, 1, 1⟩, ⟨2024, 1, 31⟩, none⟩ rfl).2.2.2
     (by decide) (by decide)⟩

/-- C9: the download endpoint consults the requester nowhere (`AllowAny`, the
ownership check is commented out): any two requesters, authenticated or not,
receive the identical response, and every caller obtains the artifact stream of
any COMPLETED report that has one. -/
theorem download_requester_irrelevant (db : Db) (pk : Nat) (u1 u2 : Option UserCtx) :
    ReportDownloadView.get db u1 pk = ReportDownloadView.get db u2 pk ∧
    (∀ rep f, db.reports.find? (fun r => decide (r.id = pk)) = some rep →
       rep.status = ReportStatusEnum.COMPLETED.name → rep.generated_file = some f →
       ReportDownloadView.get db u1 pk = HttpResult.fileStream f) := by
  refine ⟨rfl, ?_⟩
  intro rep f hfind hst hf
  simp [ReportDownloadView.get, hfind, hst, hf]

/-- C9 witness: an unauthenticated caller and an unrelated instructor get the
same answer for report 1, and the unauthenticated caller gets the stream. -/
theorem download_requester_irrelevant_witness :
    ReportDownloadView.get reportsDb none 1 =
      ReportDownloadView.get reportsDb (some ⟨7, "INSTRUCTOR"⟩) 1 ∧
    ReportDownloadView.get reportsDb none 1 = HttpResult.fileStream "r1.xlsx" :=
  ⟨(download_requester_irrelevant reportsDb 1 none (some ⟨7, "INSTRUCTOR"⟩)).1,
   (download_requester_irrelevant reportsDb 1 none (some ⟨7, "INSTRUCTOR"⟩)).2 doneRep "r1.xlsx"
     rfl rfl rfl⟩

end Cams
